import Mathlib

/-!
Verification of the data-cleaning core of data-cleaner-pro (src/app.py).

The development shallowly embeds the two components of the program:
the field-type detector (class FieldTypeDetector, method detect_type) and
the cleaning pipeline (class DataCleaner, methods clean_date, clean_numeric,
clean_email, clean_dataframe).

Modelling conventions:
- Python strings are modelled as List Char; cells of a table are the type
  Cell below, with Cell.null standing for NaN/None/absent values.
- A pandas DataFrame is modelled as an ordered list of named columns,
  List (List Char × List Cell); the field-type map is an association list.
- Python floats are modelled as exact rationals (Rat).  Threshold
  comparisons such as count / len > 0.8 are modelled by the exact rational
  inequality 5 * count > 4 * len.
- str.lower is modelled on the ASCII fragment (A-Z to a-z); str.strip is
  modelled as removal of leading and trailing whitespace characters.
- Exceptions are modelled with Except.  The class DataCleaner defines no
  method named add_log, yet clean_numeric invokes self.add_log on every
  logging path; in Python each such call raises AttributeError.  The
  embedding returns Except.error (PyErr.attributeError "add_log") there.
- In the source, the body of the branch "if f_type == number" inside
  clean_dataframe is written at the same indentation as the if itself
  (a Python IndentationError); the embedding follows the evident intended
  block structure, which the following elif branches confirm.
- Anchored regular-expression matching of the date patterns is embedded by
  explicit greedy digit-run scanners; since the separator characters are
  not digits, greedy scanning is equivalent to the backtracking semantics
  of the patterns used in the source.
-/

/-- Convert a Lean string literal to the List Char representation used for
Python strings throughout this development. -/
def chars (s : String) : List Char := s.data

/-- Whitespace characters removed by str.strip (ASCII fragment). -/
def isWs (c : Char) : Bool :=
  c == ' ' || c == '\t' || c == '\n' || c == '\r' ||
  c == Char.ofNat 11 || c == Char.ofNat 12

/-- Python str.strip: remove leading and trailing whitespace. -/
def pyStrip (l : List Char) : List Char :=
  List.rdropWhile isWs (l.dropWhile isWs)

/-- Python str.lower on a single character (ASCII fragment: the source data
handled by the program is ASCII except for fixed Chinese hint texts, which
contain no cased letters). -/
def pyLowerChar (c : Char) : Char :=
  match c with
  | 'A' => 'a' | 'B' => 'b' | 'C' => 'c' | 'D' => 'd' | 'E' => 'e'
  | 'F' => 'f' | 'G' => 'g' | 'H' => 'h' | 'I' => 'i' | 'J' => 'j'
  | 'K' => 'k' | 'L' => 'l' | 'M' => 'm' | 'N' => 'n' | 'O' => 'o'
  | 'P' => 'p' | 'Q' => 'q' | 'R' => 'r' | 'S' => 's' | 'T' => 't'
  | 'U' => 'u' | 'V' => 'v' | 'W' => 'w' | 'X' => 'x' | 'Y' => 'y'
  | 'Z' => 'z'
  | c => c

/-- Python str.lower on a string. -/
def pyLower (l : List Char) : List Char := l.map pyLowerChar

/-- Digit count parse: int("042") = 42.  Used for int(p1) <= 12 tests. -/
def natOfDigits (l : List Char) : Nat :=
  l.foldl (fun n c => n * 10 + (c.toNat - '0'.toNat)) 0

/-- Python str.zfill(2): left-pad with zeros to width two. -/
def zfill2 (l : List Char) : List Char :=
  if 2 ≤ l.length then l else List.replicate (2 - l.length) '0' ++ l

/-- Python substring containment: pat in hay. -/
def containsSub (hay pat : List Char) : Bool :=
  match hay with
  | [] => pat.isEmpty
  | _ :: t => pat.isPrefixOf hay || containsSub t pat

/-- A cell of a table: NaN/None, a number, or a string.  Integer-valued
numbers stringify without a decimal point, matching Python ints. -/
inductive Cell where
  | null : Cell
  | num : Rat → Cell
  | str : List Char → Cell

deriving DecidableEq

/-- Python str(value) for a cell.  Only the integer case is exercised by the
program paths treated here; the rendering of non-integer rationals is a
stand-in for Python float repr and is not relied upon by any claim. -/
def cellStr : Cell → List Char
  | Cell.null => chars "nan"
  | Cell.num q => if q.den = 1 then chars (toString q.num) else chars (toString q)
  | Cell.str s => s

/-- One structured record of the cleaning log (dict literal in app.py). -/
structure LogEntry where
  row : Nat
  column : List Char
  raw : Cell
  cleaned : Cell
  issue : String
  rule : Option (List Char)
  hint : Option (List Char)

deriving DecidableEq

/-- A Python exception escaping the pipeline. -/
inductive PyErr where
  | attributeError : String → PyErr

deriving DecidableEq

deriving instance DecidableEq for Except

/-- Separator of the first two date patterns: - or /. -/
def isSep (c : Char) : Bool := c == '-' || c == '/'

/-- Anchored pattern of four digits, separator, one or two digits,
separator, one or two digits (YYYY-M-D with - or / separators); returns
the three captured groups. -/
def matchYMD (l : List Char) : Option (List Char × List Char × List Char) :=
  let a := l.takeWhile Char.isDigit
  if a.length = 4 then
    match l.dropWhile Char.isDigit with
    | c1 :: t1 =>
      if isSep c1 then
        let b := t1.takeWhile Char.isDigit
        if b.length = 1 ∨ b.length = 2 then
          match t1.dropWhile Char.isDigit with
          | c2 :: t2 =>
            if isSep c2 then
              let c := t2.takeWhile Char.isDigit
              if (c.length = 1 ∨ c.length = 2) ∧ t2.dropWhile Char.isDigit = []
              then some (a, b, c) else none
            else none
          | [] => none
        else none
      else none
    | [] => none
  else none

/-- Anchored pattern of one or two digits, separator, one or two digits,
separator, four digits (D-M-YYYY with - or / separators). -/
def matchDMY (l : List Char) : Option (List Char × List Char × List Char) :=
  let a := l.takeWhile Char.isDigit
  if a.length = 1 ∨ a.length = 2 then
    match l.dropWhile Char.isDigit with
    | c1 :: t1 =>
      if isSep c1 then
        let b := t1.takeWhile Char.isDigit
        if b.length = 1 ∨ b.length = 2 then
          match t1.dropWhile Char.isDigit with
          | c2 :: t2 =>
            if isSep c2 then
              let c := t2.takeWhile Char.isDigit
              if c.length = 4 ∧ t2.dropWhile Char.isDigit = []
              then some (a, b, c) else none
            else none
          | [] => none
        else none
      else none
    | [] => none
  else none

/-- Anchored pattern of four digits, dot, one or two digits, dot, one or
two digits (YYYY.M.D). -/
def matchDot (l : List Char) : Option (List Char × List Char × List Char) :=
  let a := l.takeWhile Char.isDigit
  if a.length = 4 then
    match l.dropWhile Char.isDigit with
    | c1 :: t1 =>
      if c1 = '.' then
        let b := t1.takeWhile Char.isDigit
        if b.length = 1 ∨ b.length = 2 then
          match t1.dropWhile Char.isDigit with
          | c2 :: t2 =>
            if c2 = '.' then
              let c := t2.takeWhile Char.isDigit
              if (c.length = 1 ∨ c.length = 2) ∧ t2.dropWhile Char.isDigit = []
              then some (a, b, c) else none
            else none
          | [] => none
        else none
      else none
    | [] => none
  else none

/-- Match of the numeric-token pattern (optional sign, digits, optional dot,
digits) at the start of a string, without the sign: greedy digit run,
optionally followed by a dot and a nonempty digit run.  This reproduces the
backtracking search of the pattern used in clean_numeric, where a trailing
bare dot is not consumed. -/
def numCore (l : List Char) : Option (List Char) :=
  let ds := l.takeWhile Char.isDigit
  match l.dropWhile Char.isDigit with
  | '.' :: r2 =>
    let fs := r2.takeWhile Char.isDigit
    if fs.isEmpty then (if ds.isEmpty then none else some ds)
    else some (ds ++ '.' :: fs)
  | _ => if ds.isEmpty then none else some ds

/-- Match of the full numeric-token pattern at the start of a string,
including an optional leading sign. -/
def numAt (l : List Char) : Option (List Char) :=
  match l with
  | [] => none
  | c :: t => if c = '-' ∨ c = '+' then (numCore t).map (c :: ·) else numCore l

/-- re.search of the numeric-token pattern: leftmost match wins. -/
def numSearch : List Char → Option (List Char)
  | [] => none
  | c :: t =>
    match numAt (c :: t) with
    | some m => some m
    | none => numSearch t

/-- Value of an unsigned numeric token (digits, optional dot, digits). -/
def ratOfUnsigned (l : List Char) : Rat :=
  let ds := l.takeWhile Char.isDigit
  match l.dropWhile Char.isDigit with
  | '.' :: fs => (natOfDigits ds : Rat) + (natOfDigits fs : Rat) / ((10 : Rat) ^ fs.length)
  | _ => (natOfDigits ds : Rat)

/-- Python float() applied to a matched numeric token. -/
def ratOfTok (l : List Char) : Rat :=
  match l with
  | '-' :: t => -(ratOfUnsigned t)
  | '+' :: t => ratOfUnsigned t
  | t => ratOfUnsigned t

/-- Mantissa part of a float literal: digits, optional dot, digits, where at
least one digit is present.  Returns the value and the unconsumed rest. -/
def parseMantissa (l : List Char) : Option (Rat × List Char) :=
  let ds := l.takeWhile Char.isDigit
  match l.dropWhile Char.isDigit with
  | '.' :: r2 =>
    let fs := r2.takeWhile Char.isDigit
    if ds.isEmpty ∧ fs.isEmpty then none
    else some ((natOfDigits ds : Rat) + (natOfDigits fs : Rat) / ((10 : Rat) ^ fs.length),
               r2.dropWhile Char.isDigit)
  | rest => if ds.isEmpty then none else some ((natOfDigits ds : Rat), rest)

/-- Optional exponent suffix of a float literal, applied to a mantissa. -/
def parseExpPart (q : Rat) (l : List Char) : Option Rat :=
  match l with
  | [] => some q
  | c :: t =>
    if c = 'e' ∨ c = 'E' then
      match t with
      | s :: t2 =>
        if s = '+' ∨ s = '-' then
          let ds := t2.takeWhile Char.isDigit
          if ds.isEmpty ∨ t2.dropWhile Char.isDigit ≠ [] then none
          else some (if s = '-' then q / (10 : Rat) ^ natOfDigits ds
                     else q * (10 : Rat) ^ natOfDigits ds)
        else
          let ds := t.takeWhile Char.isDigit
          if ds.isEmpty ∨ t.dropWhile Char.isDigit ≠ [] then none
          else some (q * (10 : Rat) ^ natOfDigits ds)
      | [] => none
    else none

/-- Sign-stripped body of a float literal: mantissa then optional exponent. -/
def parseAfterSign (neg : Bool) (l : List Char) : Option Rat := do
  let (q, rest) ← parseMantissa l
  let r ← parseExpPart q rest
  some (if neg then -r else r)

/-- Numeric parse used to model pd.to_numeric on a string: an optionally
signed decimal float literal surrounded by optional whitespace. -/
def parseFloatLit (l0 : List Char) : Option Rat :=
  match pyStrip l0 with
  | '-' :: t => parseAfterSign true t
  | '+' :: t => parseAfterSign false t
  | l => parseAfterSign false l

/-- pd.to_numeric with errors coerce, per cell: numbers pass through,
unparseable strings become NaN. -/
def pdToNumericCell : Cell → Cell
  | Cell.null => Cell.null
  | Cell.num q => Cell.num q
  | Cell.str s =>
    match parseFloatLit s with
    | some q => Cell.num q
    | none => Cell.null

/-- Whether pd.to_numeric succeeds on a cell (used by the detector counts). -/
def pdOk : Cell → Bool
  | Cell.null => false
  | Cell.num _ => true
  | Cell.str s => (parseFloatLit s).isSome

/-- Character class of the local part of the loose email-like pattern used
by the detector. -/
def isEmailC1 (c : Char) : Bool :=
  c.isAlpha || c.isDigit || c == '.' || c == '_' || c == '%' || c == '+' || c == '-'

/-- Character class of the domain part of the loose email-like pattern. -/
def isEmailC2 (c : Char) : Bool :=
  c.isAlpha || c.isDigit || c == '.' || c == '-'

/-- Two ASCII letters at the head of the remainder, as required after the
final dot of the email-like pattern. -/
def twoAlpha : List Char → Bool
  | a :: b :: _ => a.isAlpha && b.isAlpha
  | _ => false

/-- Scan of the part after the separator of the email-like pattern: a
nonempty run of domain characters, then a dot followed by at least two
letters.  The flag records whether at least one domain character has been
consumed.  Equivalent to the backtracking semantics of the pattern since a
match merely has to exist. -/
def emailTail : List Char → Bool → Bool
  | [], _ => false
  | c :: rest, seen =>
    (c = '.' && seen && twoAlpha rest) ||
    (isEmailC2 c && emailTail rest true)

/-- re.match of the loose email-like detector pattern: local part, at-sign
or hash, domain, dot, at least two letters; anchored at the start only. -/
def emailLike (l : List Char) : Bool :=
  let a := l.takeWhile isEmailC1
  !a.isEmpty &&
    (match l.dropWhile isEmailC1 with
     | sep :: r2 => (sep = '@' || sep = '#') && emailTail r2 false
     | [] => false)

/-- Character class of the strict email validation pattern: anything that is
neither whitespace nor an at-sign. -/
def isNonWsAt (c : Char) : Bool := !isWs c && c != '@'

/-- Some dot strictly inside the scanned part, with at least one character
after it. -/
def dotThen : List Char → Bool
  | '.' :: _ :: _ => true
  | _ :: rest => dotThen rest
  | [] => false

/-- re.match of the strict anchored email pattern used by clean_email:
nonempty local part without whitespace or at-signs, one at-sign, then a
domain containing a dot that has a nonempty prefix and suffix. -/
def emailOk (l : List Char) : Bool :=
  let a := l.takeWhile isNonWsAt
  !a.isEmpty &&
    (match l.dropWhile isNonWsAt with
     | '@' :: r2 =>
       (match r2 with
        | c0 :: rest => isNonWsAt c0 && rest.all isNonWsAt && dotThen rest
        | [] => false)
     | _ => false)

/-- series.dropna(): the non-null values of a column. -/
def nonNullOf (values : List Cell) : List Cell :=
  values.filter (fun c => match c with | Cell.null => false | _ => true)

/-- Count of non-null values parseable by pd.to_numeric. -/
def numericCount (values : List Cell) : Nat :=
  (nonNullOf values).countP pdOk

/-- Count of non-null values whose stringification matches one of the three
anchored date patterns, summed over patterns as in the source. -/
def dateCount (values : List Cell) : Nat :=
  (nonNullOf values).countP (fun c => (matchYMD (cellStr c)).isSome) +
  (nonNullOf values).countP (fun c => (matchDMY (cellStr c)).isSome) +
  (nonNullOf values).countP (fun c => (matchDot (cellStr c)).isSome)

/-- Count of non-null string values matching the loose email-like pattern
(the source applies the .str accessor without astype, so non-string values
contribute nothing). -/
def emailCount (values : List Cell) : Nat :=
  (nonNullOf values).countP
    (fun c => match c with | Cell.str s => emailLike s | _ => false)

/-- The boolean vocabulary of the detector, verbatim from the source (the
last two entries are unreachable since the tested strings are lowered). -/
def boolVocab : List (List Char) :=
  [chars "true", chars "false", chars "yes", chars "no", chars "1", chars "0",
   chars "y", chars "n", chars "T", chars "F"]

/-- Count of non-null values whose lowered stringification is in the boolean
vocabulary. -/
def boolCount (values : List Cell) : Nat :=
  (nonNullOf values).countP (fun c => boolVocab.contains (pyLower (cellStr c)))

/-- FieldTypeDetector.detect_type.  Fractional thresholds count/len > r are
expressed by the equivalent exact cross-multiplied integer comparisons. -/
def detect_type (name : List Char) (values : List Cell) : String :=
  let nn := nonNullOf values
  if nn.isEmpty then "text"
  else if 5 * numericCount values > 4 * nn.length then "number"
  else if 10 * dateCount values > 7 * nn.length then "date"
  else if containsSub (pyLower name) (chars "email") ||
          containsSub (pyLower name) (chars "mail") then "email"
  else if 5 * emailCount values > 3 * nn.length then "email"
  else if 5 * boolCount values > 4 * nn.length then "boolean"
  else "text"

/-- The numeric placeholder vocabulary of clean_numeric, verbatim. -/
def nullKeywords : List (List Char) :=
  [chars "unknown", chars "not a number", chars "not_a_number", chars "nan",
   chars "n/a", chars "?", chars "none", chars "null", chars "-", chars "undefined"]

/-- The range-rule table assigned in DataCleaner.__init__, in its iteration
order. -/
def rules : List (List Char × Option Rat × Option Rat) :=
  [(chars "age", some 0, some 120),
   (chars "salary", some 0, some 10000000),
   (chars "price", some 0, some 1000000),
   (chars "quantity", some 0, some 100000)]

/-- The range-check loop of clean_numeric.  Each matching rule whose min or
max bound is violated invokes self.add_log, a method the class does not
define, so such a cell raises AttributeError; a matching, satisfied rule
lets the loop continue. -/
def rangeGo (num : Rat) (colLower : List Char) :
    List (List Char × Option Rat × Option Rat) → Except PyErr Cell
  | [] => Except.ok (Cell.num num)
  | (key, mn, mx) :: rest =>
    if containsSub colLower key then
      if (match mn with | some m => decide (num < m) | none => false) then
        Except.error (PyErr.attributeError "add_log")
      else if (match mx with | some m => decide (m < num) | none => false) then
        Except.error (PyErr.attributeError "add_log")
      else rangeGo num colLower rest
    else rangeGo num colLower rest

/-- DataCleaner.clean_numeric.  Every logging path of this method calls
self.add_log, which DataCleaner does not define, so those paths raise
AttributeError instead of logging; the row index and column name do not
influence the outcome beyond rule matching on the lowered column name. -/
def clean_numeric (value : Cell) (rowIdx : Nat) (colName : List Char) :
    Except PyErr Cell :=
  if value = Cell.null ∨ pyStrip (cellStr value) = [] then Except.ok Cell.null
  else
    let rawStr := pyStrip (cellStr value)
    let strVal := pyLower rawStr
    if nullKeywords.contains strVal then Except.error (PyErr.attributeError "add_log")
    else
      let tempVal := strVal.filter (fun c => !(c == '$' || c == '￥' || c == ','))
      match numSearch tempVal with
      | none => Except.error (PyErr.attributeError "add_log")
      | some tok => rangeGo (ratOfTok tok) (pyLower colName) rules

/-- ISO output format of clean_date: year, dash, zero-padded month, dash,
zero-padded day. -/
def isoFmt (y m d : List Char) : List Char :=
  y ++ '-' :: zfill2 m ++ '-' :: zfill2 d

/-- Hint text of an ambiguous-date log entry, with the two captured leading
components interpolated as in the f-string of the source. -/
def ambHint (p1 p2 : List Char) : List Char :=
  chars "可能是" ++ p1 ++ chars "月" ++ p2 ++ chars "日 或 " ++
  p2 ++ chars "月" ++ p1 ++ chars "日"

/-- Hint text of an invalid-format date log entry, verbatim. -/
def dateFormatsHint : List Char :=
  chars "支持格式: YYYY-MM-DD, DD/MM/YYYY, YYYY.MM.DD, yesterday"

/-- DataCleaner.clean_date.  The strings produced by datetime.now() for the
natural-language tokens today and yesterday are passed as explicit
parameters todayS and yesterdayS, modelling the ambient clock. -/
def clean_date (todayS yesterdayS : List Char) (value : Cell) (rowIdx : Nat)
    (colName : List Char) : Cell × List LogEntry :=
  match value with
  | Cell.null => (Cell.null, [])
  | v =>
    let sv := pyLower (pyStrip (cellStr v))
    if sv = chars "yesterday" then (Cell.str yesterdayS, [])
    else if sv = chars "today" then (Cell.str todayS, [])
    else
      match matchYMD sv with
      | some (y, m, d) => (Cell.str (isoFmt y m d), [])
      | none =>
        match matchDMY sv with
        | some (p1, p2, year) =>
          if natOfDigits p1 ≤ 12 ∧ natOfDigits p2 ≤ 12 then
            (Cell.str (isoFmt year p1 p2),
             [{ row := rowIdx + 1, column := colName, raw := v,
                cleaned := Cell.str (isoFmt year p1 p2),
                issue := "ambiguous_date", rule := none,
                hint := some (ambHint p1 p2) }])
          else
            (Cell.str (isoFmt year
              (if natOfDigits p1 ≤ 12 then p1 else p2)
              (if natOfDigits p1 ≤ 12 then p2 else p1)), [])
        | none =>
          match matchDot sv with
          | some (y, m, d) => (Cell.str (isoFmt y m d), [])
          | none =>
            (v, [{ row := rowIdx + 1, column := colName, raw := v,
                   cleaned := Cell.null, issue := "invalid_format",
                   rule := some (chars "valid_date_format"),
                   hint := some dateFormatsHint }])

/-- Character repair map of clean_email: hash signs and full-width at-signs
become at-signs.  Python str.replace with single-character arguments is a
character map. -/
def repairChar (c : Char) : Char :=
  if c = '#' then '@' else if c = '＠' then '@' else c

/-- The normalization performed by clean_email before validation: strip,
lower, then repair characters. -/
def emailNormalize (l : List Char) : List Char :=
  (pyLower (pyStrip l)).map repairChar

/-- DataCleaner.clean_email: normalize, validate with the strict anchored
pattern, log on failure, and return the repaired string in either case. -/
def clean_email (value : Cell) (rowIdx : Nat) (colName : List Char) :
    Cell × List LogEntry :=
  match value with
  | Cell.null => (Cell.null, [])
  | v =>
    let email := emailNormalize (cellStr v)
    if emailOk email then (Cell.str email, [])
    else
      (Cell.str email,
       [{ row := rowIdx + 1, column := colName, raw := v,
          cleaned := Cell.str email, issue := "invalid_email",
          rule := some (chars "valid_email_format"),
          hint := some (chars "缺少@或域名后缀不完整") }])

/-- Lookup in the column-to-FieldType mapping (dict membership and
indexing). -/
def fieldLookup (ft : List (List Char × String)) (name : List Char) : Option String :=
  (ft.find? (fun p => p.1 == name)).map (fun p => p.2)

/-- The list comprehension of the number branch of clean_dataframe: apply
clean_numeric to each cell with its enumerate index, aborting at the first
raised exception. -/
def applyNumeric (colName : List Char) : Nat → List Cell → Except PyErr (List Cell)
  | _, [] => Except.ok []
  | i, v :: rest =>
    match clean_numeric v i colName with
    | Except.error e => Except.error e
    | Except.ok c =>
      match applyNumeric colName (i + 1) rest with
      | Except.error e => Except.error e
      | Except.ok cs => Except.ok (c :: cs)

/-- The email branch of clean_dataframe: Series.apply with a lambda passing
row index 0 for every cell, collecting log entries in row order. -/
def applyEmail (colName : List Char) : List Cell → List Cell × List LogEntry
  | [] => ([], [])
  | v :: rest =>
    let (c, l1) := clean_email v 0 colName
    let (cs, l2) := applyEmail colName rest
    (c :: cs, l1 ++ l2)

/-- The date branch of clean_dataframe: Series.apply with a lambda passing
row index 0 for every cell, collecting log entries in row order. -/
def applyDate (todayS yesterdayS colName : List Char) :
    List Cell → List Cell × List LogEntry
  | [] => ([], [])
  | v :: rest =>
    let (c, l1) := clean_date todayS yesterdayS v 0 colName
    let (cs, l2) := applyDate todayS yesterdayS colName rest
    (c :: cs, l1 ++ l2)

/-- Treatment of one column by the dispatch loop of clean_dataframe:
columns absent from the mapping and columns of unhandled types pass
through; the number branch additionally coerces its result column with
pd.to_numeric. -/
def cleanCol (todayS yesterdayS : List Char) (ft : List (List Char × String))
    (name : List Char) (vals : List Cell) :
    Except PyErr (List Cell × List LogEntry) :=
  match fieldLookup ft name with
  | none => Except.ok (vals, [])
  | some t =>
    if t = "number" then
      match applyNumeric name 0 vals with
      | Except.error e => Except.error e
      | Except.ok cs => Except.ok (cs.map pdToNumericCell, [])
    else if t = "email" then Except.ok (applyEmail name vals)
    else if t = "date" then Except.ok (applyDate todayS yesterdayS name vals)
    else Except.ok (vals, [])

/-- The per-column loop of clean_dataframe over the ordered columns of the
frame, threading the accumulated log. -/
def cleanCols (todayS yesterdayS : List Char) (ft : List (List Char × String)) :
    List (List Char × List Cell) →
    Except PyErr (List (List Char × List Cell) × List LogEntry)
  | [] => Except.ok ([], [])
  | (name, vals) :: rest =>
    match cleanCol todayS yesterdayS ft name vals with
    | Except.error e => Except.error e
    | Except.ok (cs, l1) =>
      match cleanCols todayS yesterdayS ft rest with
      | Except.error e => Except.error e
      | Except.ok (rest2, l2) => Except.ok ((name, cs) :: rest2, l1 ++ l2)

/-- The final safety net of clean_dataframe: every column whose lowered name
contains the word salary is coerced with pd.to_numeric, regardless of the
type map. -/
def salaryPass (df : List (List Char × List Cell)) : List (List Char × List Cell) :=
  df.map (fun p =>
    if containsSub (pyLower p.1) (chars "salary")
    then (p.1, p.2.map pdToNumericCell) else p)

/-- DataCleaner.clean_dataframe: reset the log, copy the frame, dispatch per
column, run the salary safety net, and return cleaned frame, original
snapshot, and log.  The original snapshot equals the input frame in this
pure embedding of df.copy(). -/
def clean_dataframe (todayS yesterdayS : List Char)
    (df : List (List Char × List Cell)) (ft : List (List Char × String)) :
    Except PyErr
      (List (List Char × List Cell) × List (List Char × List Cell) × List LogEntry) :=
  match cleanCols todayS yesterdayS ft df with
  | Except.error e => Except.error e
  | Except.ok (cleaned, log) => Except.ok (salaryPass cleaned, df, log)

/-- The lowercase ASCII alphabet, the image of the cased branch of
pyLowerChar. -/
def asciiLower : List Char :=
  ['a','b','c','d','e','f','g','h','i','j','k','l','m',
   'n','o','p','q','r','s','t','u','v','w','x','y','z']

/-!
Sanity checks of the embedding on concrete inputs, including the sample
data shipped with the application.
-/

example : numSearch (chars "7000") = some (chars "7000") := by decide

example : numSearch (chars "abc") = none := by decide

example : numSearch (chars "ab-3.5x") = some (chars "-3.5") := by decide

example : numSearch (chars "12..5") = some (chars "12") := by decide

example : numSearch (chars "a.5") = some (chars ".5") := by decide

example : ratOfTok (chars "-3.5") = -(7 / 2 : Rat) := by
  have e1 : natOfDigits (chars "3") = 3 := by decide
  have e2 : natOfDigits (chars "5") = 5 := by decide
  have h2 : ratOfUnsigned (chars "3.5") =
      ((natOfDigits (chars "3") : Nat) : Rat) +
        ((natOfDigits (chars "5") : Nat) : Rat) / (10 : Rat) ^ (1 : Nat) := rfl
  have h1 : ratOfTok (chars "-3.5") = -(ratOfUnsigned (chars "3.5")) := rfl
  rw [h1, h2, e1, e2]; norm_num

example : ratOfTok (chars "7000") = 7000 := by decide

example : (parseFloatLit (chars " -12.5e1 ")).isSome = true := by decide

example : parseFloatLit (chars " 7000 ") = some 7000 := by decide

example : parseFloatLit (chars "abc") = none := by decide

example : parseFloatLit (chars "7000") = some 7000 := by decide

example : emailLike (chars "zhang#example.com") = true := by decide

example : emailLike (chars "lisi@example") = false := by decide

example : emailOk (chars "zhang@example.com") = true := by decide

example : emailOk (chars "lisi@example") = false := by decide

example : emailOk (chars "a@.com") = false := by decide

example : emailOk (chars "a@b.c.de") = true := by decide

example : emailOk (chars "a b@c.de") = false := by decide

example : matchYMD (chars "2024-01-15") = some (chars "2024", chars "01", chars "15") := by decide

example : matchYMD (chars "2024/1/5") = some (chars "2024", chars "1", chars "5") := by decide

example : matchYMD (chars "2024-01-15 ") = none := by decide

example : matchDMY (chars "01/02/2024") = some (chars "01", chars "02", chars "2024") := by decide

example : matchDMY (chars "2024-01-15") = none := by decide

example : matchDot (chars "2024.3.20") = some (chars "2024", chars "3", chars "20") := by decide

example : pyStrip (chars "  a b  ") = chars "a b" := by decide

example : pyLower (chars "Not A Number") = chars "not a number" := by decide

example : containsSub (chars "age_salary_ratio") (chars "salary") = true := by decide

example : containsSub (chars "notes") (chars "salary") = false := by decide

example : detect_type (chars "age")
    [Cell.num 25, Cell.num 30, Cell.num 150, Cell.num 28] = "number" := by decide

example : detect_type (chars "age")
    [Cell.num 25, Cell.num 30, Cell.num 150, Cell.str (chars "invalid"), Cell.num 28]
    = "text" := by decide

example : detect_type (chars "date")
    [Cell.str (chars "2024-01-15"), Cell.str (chars "01/02/2024"),
     Cell.str (chars "2024.03.20"), Cell.str (chars "2024-04-01"),
     Cell.str (chars "not-a-date")] = "date" := by decide

example : detect_type (chars "email")
    [Cell.str (chars "zhang#example.com"), Cell.str (chars "lisi@example")]
    = "email" := by decide

example : detect_type (chars "flags")
    [Cell.str (chars "YES"), Cell.str (chars "no"), Cell.str (chars "y"),
     Cell.str (chars "yes"), Cell.str (chars "no")] = "boolean" := by decide

example : detect_type (chars "name")
    [Cell.str (chars "Zhang San"), Cell.str (chars "Li Si")] = "text" := by decide

example : detect_type (chars "anything") [Cell.null] = "text" := by decide

example : clean_numeric (Cell.str (chars "$7,000")) 0 (chars "salary")
    = Except.ok (Cell.num 7000) := by decide

example : clean_numeric (Cell.str (chars "n/a")) 0 (chars "x")
    = Except.error (PyErr.attributeError "add_log") := by decide

example : clean_numeric (Cell.str (chars "abc")) 0 (chars "x")
    = Except.error (PyErr.attributeError "add_log") := by decide

example : clean_numeric (Cell.num 150) 0 (chars "age")
    = Except.error (PyErr.attributeError "add_log") := by decide

example : clean_numeric (Cell.num 25) 0 (chars "age") = Except.ok (Cell.num 25) := by decide

example : clean_numeric Cell.null 0 (chars "age") = Except.ok Cell.null := by decide

example : clean_numeric (Cell.str (chars "  ")) 0 (chars "age") = Except.ok Cell.null := by decide

example : clean_date (chars "T") (chars "Y") (Cell.str (chars "2024-1-5")) 3 (chars "d")
    = (Cell.str (chars "2024-01-05"), []) := by decide

example : clean_date (chars "T") (chars "Y") (Cell.str (chars "01/02/2024")) 0 (chars "d")
    = (Cell.str (chars "2024-01-02"),
       [{ row := 1, column := chars "d", raw := Cell.str (chars "01/02/2024"),
          cleaned := Cell.str (chars "2024-01-02"), issue := "ambiguous_date",
          rule := none, hint := some (ambHint (chars "01") (chars "02")) }]) := by decide

example : clean_date (chars "T") (chars "Y") (Cell.str (chars "25/12/2024")) 0 (chars "d")
    = (Cell.str (chars "2024-12-25"), []) := by decide

example : clean_date (chars "T") (chars "Y") (Cell.str (chars "2024.3.20")) 0 (chars "d")
    = (Cell.str (chars "2024-03-20"), []) := by decide

example : clean_date (chars "T") (chars "Y") (Cell.str (chars " YESTERDAY ")) 0 (chars "d")
    = (Cell.str (chars "Y"), []) := by decide

example : (clean_date (chars "T") (chars "Y") (Cell.str (chars "not-a-date")) 4 (chars "d")).2
    = [{ row := 5, column := chars "d", raw := Cell.str (chars "not-a-date"),
         cleaned := Cell.null, issue := "invalid_format",
         rule := some (chars "valid_date_format"),
         hint := some dateFormatsHint }] := by decide

example : clean_date (chars "T") (chars "Y") Cell.null 0 (chars "d")
    = (Cell.null, []) := by decide

example : clean_email (Cell.str (chars "zhang#example.com")) 0 (chars "email")
    = (Cell.str (chars "zhang@example.com"), []) := by decide

example : clean_email (Cell.str (chars "lisi@example")) 0 (chars "email")
    = (Cell.str (chars "lisi@example"),
       [{ row := 1, column := chars "email", raw := Cell.str (chars "lisi@example"),
          cleaned := Cell.str (chars "lisi@example"), issue := "invalid_email",
          rule := some (chars "valid_email_format"),
          hint := some (chars "缺少@或域名后缀不完整") }]) := by decide

example : clean_email Cell.null 2 (chars "email") = (Cell.null, []) := by decide

example : clean_dataframe (chars "T") (chars "Y")
    [(chars "salary", [Cell.str (chars "$7,000")])]
    [(chars "salary", "number")]
    = Except.ok ([(chars "salary", [Cell.num 7000])],
                 [(chars "salary", [Cell.str (chars "$7,000")])], []) := by decide

example : clean_dataframe (chars "T") (chars "Y")
    [(chars "age", [Cell.str (chars "n/a")])]
    [(chars "age", "number")]
    = Except.error (PyErr.attributeError "add_log") := by decide

example : clean_dataframe (chars "T") (chars "Y")
    [(chars "salary", [Cell.str (chars "abc")])] []
    = Except.ok ([(chars "salary", [Cell.null])],
                 [(chars "salary", [Cell.str (chars "abc")])], []) := by decide

example : clean_dataframe (chars "T") (chars "Y")
    [(chars "notes", [Cell.str (chars "abc")])] []
    = Except.ok ([(chars "notes", [Cell.str (chars "abc")])],
                 [(chars "notes", [Cell.str (chars "abc")])], []) := by decide

example : clean_dataframe (chars "T") (chars "Y")
    [(chars "d", [Cell.str (chars "2024-01-15"), Cell.str (chars "bad")])]
    [(chars "d", "date")]
    = Except.ok ([(chars "d", [Cell.str (chars "2024-01-15"), Cell.str (chars "bad")])],
                 [(chars "d", [Cell.str (chars "2024-01-15"), Cell.str (chars "bad")])],
                 [{ row := 1, column := chars "d", raw := Cell.str (chars "bad"),
                    cleaned := Cell.null, issue := "invalid_format",
                    rule := some (chars "valid_date_format"),
                    hint := some dateFormatsHint }]) := by decide

/-!
Helper lemmas, followed by the claim theorems.
-/

theorem isWs_pyLowerChar (c : Char) : isWs (pyLowerChar c) = isWs c := by
  unfold pyLowerChar; split <;> rfl

theorem pyLowerChar_ran (c : Char) : pyLowerChar c = c ∨ pyLowerChar c ∈ asciiLower := by
  unfold pyLowerChar
  split <;> first | (right ; decide) | (left ; rfl)

theorem pyLowerChar_idem (c : Char) : pyLowerChar (pyLowerChar c) = pyLowerChar c := by
  rcases pyLowerChar_ran c with h | h
  · simp only [h]
  · have hfix : ∀ d, d ∈ asciiLower → pyLowerChar d = d := by decide
    rw [hfix _ h]

theorem isWs_repairChar (c : Char) : isWs (repairChar c) = isWs c := by
  unfold repairChar
  split_ifs with h1 h2
  · subst h1; rfl
  · subst h2; rfl
  · rfl

theorem repairChar_ran (c : Char) : repairChar c = c ∨ repairChar c = '@' := by
  unfold repairChar
  split_ifs with h1 h2
  · right; rfl
  · right; rfl
  · left; rfl

theorem emailStepChar_idem (c : Char) :
    repairChar (pyLowerChar (repairChar (pyLowerChar c))) = repairChar (pyLowerChar c) := by
  rcases repairChar_ran (pyLowerChar c) with h | h
  · rw [h, pyLowerChar_idem, h]
  · rw [h]; decide

theorem isWs_emailStep (c : Char) : isWs (repairChar (pyLowerChar c)) = isWs c := by
  rw [isWs_repairChar, isWs_pyLowerChar]

theorem dropWhile_map_isWs (g : Char → Char) (hg : ∀ c, isWs (g c) = isWs c)
    (l : List Char) :
    List.dropWhile isWs (l.map g) = (List.dropWhile isWs l).map g := by
  rw [List.dropWhile_map]
  have h : isWs ∘ g = isWs := funext hg
  rw [h]

theorem rdropWhile_map_isWs (g : Char → Char) (hg : ∀ c, isWs (g c) = isWs c)
    (l : List Char) :
    List.rdropWhile isWs (l.map g) = (List.rdropWhile isWs l).map g := by
  unfold List.rdropWhile
  rw [List.reverse_map, dropWhile_map_isWs g hg, List.reverse_map]

theorem pyStrip_map_isWs (g : Char → Char) (hg : ∀ c, isWs (g c) = isWs c)
    (l : List Char) : pyStrip (l.map g) = (pyStrip l).map g := by
  unfold pyStrip
  rw [dropWhile_map_isWs g hg, rdropWhile_map_isWs g hg]

theorem dropWhile_pyStrip (l : List Char) :
    List.dropWhile isWs (pyStrip l) = pyStrip l := by
  unfold pyStrip
  rw [List.dropWhile_eq_self_iff]
  intro hl
  have hpre : List.rdropWhile isWs (List.dropWhile isWs l) <+: List.dropWhile isWs l :=
    List.rdropWhile_prefix isWs (List.dropWhile isWs l)
  have hget := hpre.getElem (n := 0) (by simpa using hl)
  have hm2 : List.dropWhile isWs (List.dropWhile isWs l) = List.dropWhile isWs l :=
    List.dropWhile_idempotent isWs l
  rw [List.dropWhile_eq_self_iff] at hm2
  have hlen : 0 < (List.dropWhile isWs l).length :=
    lt_of_lt_of_le hl hpre.length_le
  have hx := hm2 hlen
  rw [List.get_eq_getElem] at hx ⊢
  simpa [hget] using hx

theorem pyStrip_idem (l : List Char) : pyStrip (pyStrip l) = pyStrip l := by
  show List.rdropWhile isWs (List.dropWhile isWs (pyStrip l)) = pyStrip l
  rw [dropWhile_pyStrip]
  show List.rdropWhile isWs (List.rdropWhile isWs (List.dropWhile isWs l)) = _
  rw [List.rdropWhile_idempotent]
  rfl

theorem emailNormalize_idem (l : List Char) :
    emailNormalize (emailNormalize l) = emailNormalize l := by
  unfold emailNormalize pyLower
  rw [List.map_map, List.map_map,
      pyStrip_map_isWs (repairChar ∘ pyLowerChar) (fun c => isWs_emailStep c),
      pyStrip_idem, List.map_map]
  congr 1
  funext c
  exact emailStepChar_idem c

theorem matchYMD_none_of_matchDMY (l : List Char) (t : List Char × List Char × List Char)
    (h : matchDMY l = some t) : matchYMD l = none := by
  by_cases h4 : (l.takeWhile Char.isDigit).length = 4
  · exfalso
    have h12 : ¬((l.takeWhile Char.isDigit).length = 1 ∨
        (l.takeWhile Char.isDigit).length = 2) := by omega
    simp only [matchDMY] at h
    rw [if_neg h12] at h
    exact Option.noConfusion h
  · simp only [matchYMD]
    rw [if_neg h4]

/-- Claim C5: for a date string matching the D-M-YYYY pattern with leading
components p1 and p2, clean_date resolves p1 as month and p2 as day and
emits one ambiguous_date log entry (cleaned set to the resolved zero-padded
ISO string, hint naming both interpretations) when both components are at
most 12, and otherwise takes the one component at most 12 as the month and
the other as the day with no log entry. -/
theorem C5_dmy_ambiguity_resolution (todayS yesterdayS : List Char) (v p1 p2 y : List Char)
    (i : Nat) (col : List Char)
    (h : matchDMY (pyLower (pyStrip v)) = some (p1, p2, y)) :
    (natOfDigits p1 ≤ 12 ∧ natOfDigits p2 ≤ 12 →
      clean_date todayS yesterdayS (Cell.str v) i col =
        (Cell.str (isoFmt y p1 p2),
         [{ row := i + 1, column := col, raw := Cell.str v,
            cleaned := Cell.str (isoFmt y p1 p2), issue := "ambiguous_date",
            rule := none, hint := some (ambHint p1 p2) }])) ∧
    (natOfDigits p1 ≤ 12 → 12 < natOfDigits p2 →
      clean_date todayS yesterdayS (Cell.str v) i col = (Cell.str (isoFmt y p1 p2), [])) ∧
    (12 < natOfDigits p1 → natOfDigits p2 ≤ 12 →
      clean_date todayS yesterdayS (Cell.str v) i col = (Cell.str (isoFmt y p2 p1), [])) := by
  have hy : pyLower (pyStrip v) ≠ chars "yesterday" := by
    intro e
    rw [e] at h
    have hn : matchDMY (chars "yesterday") = none := by decide
    rw [hn] at h
    exact Option.noConfusion h
  have ht : pyLower (pyStrip v) ≠ chars "today" := by
    intro e
    rw [e] at h
    have hn : matchDMY (chars "today") = none := by decide
    rw [hn] at h
    exact Option.noConfusion h
  have hymd := matchYMD_none_of_matchDMY _ _ h
  simp only [clean_date, cellStr, hymd, h, if_neg hy, if_neg ht]
  refine ⟨fun hb => ?_, fun h1 h2 => ?_, fun h1 h2 => ?_⟩
  · rw [if_pos hb]
  · rw [if_neg (by omega), if_pos h1, if_pos h1]
  · rw [if_neg (by omega), if_neg (by omega), if_neg (by omega)]

theorem clean_email_fst (v : Cell) (hv : v ≠ Cell.null) (i : Nat) (col : List Char) :
    (clean_email v i col).1 = Cell.str (emailNormalize (cellStr v)) := by
  have hfst : ∀ (c : Prop) (inst : Decidable c) (a : Cell) (x y : List LogEntry),
      (if c then (a, x) else (a, y)).1 = a := by
    intro c inst a x y
    split <;> rfl
  cases v with
  | null => exact absurd rfl hv
  | num q => exact hfst _ _ _ _ _
  | str s => exact hfst _ _ _ _ _

theorem applyEmail_fst_len (col : List Char) (vs : List Cell) :
    (applyEmail col vs).1.length = vs.length := by
  induction vs with
  | nil => rfl
  | cons v rest ih =>
    show ((clean_email v 0 col).1 :: (applyEmail col rest).1).length = rest.length + 1
    simp [ih]

theorem applyDate_fst_len (ts ys col : List Char) (vs : List Cell) :
    (applyDate ts ys col vs).1.length = vs.length := by
  induction vs with
  | nil => rfl
  | cons v rest ih =>
    show ((clean_date ts ys v 0 col).1 :: (applyDate ts ys col rest).1).length
        = rest.length + 1
    simp [ih]

theorem applyNumeric_len (col : List Char) :
    ∀ (vs : List Cell) (i : Nat) (cs : List Cell),
      applyNumeric col i vs = Except.ok cs → cs.length = vs.length := by
  intro vs
  induction vs with
  | nil =>
    intro i cs h
    simp only [applyNumeric, Except.ok.injEq] at h
    rw [← h]
  | cons v rest ih =>
    intro i cs h
    simp only [applyNumeric] at h
    cases hc : clean_numeric v i col with
    | error e =>
      simp only [hc] at h
      exact Except.noConfusion h
    | ok c =>
      simp only [hc] at h
      cases hr : applyNumeric col (i + 1) rest with
      | error e =>
        simp only [hr] at h
        exact Except.noConfusion h
      | ok cs2 =>
        simp only [hr, Except.ok.injEq] at h
        rw [← h]
        simp [ih (i + 1) cs2 hr]

theorem cleanCol_len (ts ys : List Char) (ft : List (List Char × String))
    (name : List Char) (vals cs : List Cell) (lg : List LogEntry)
    (h : cleanCol ts ys ft name vals = Except.ok (cs, lg)) :
    cs.length = vals.length := by
  unfold cleanCol at h
  cases hf : fieldLookup ft name with
  | none =>
    simp only [hf, Except.ok.injEq, Prod.mk.injEq] at h
    rw [← h.1]
  | some t =>
    simp only [hf] at h
    by_cases h1 : t = "number"
    · rw [if_pos h1] at h
      cases ha : applyNumeric name 0 vals with
      | error e =>
        simp only [ha] at h
        exact Except.noConfusion h
      | ok cs2 =>
        simp only [ha, Except.ok.injEq, Prod.mk.injEq] at h
        rw [← h.1]
        simp [applyNumeric_len name vals 0 cs2 ha]
    · rw [if_neg h1] at h
      by_cases h2 : t = "email"
      · rw [if_pos h2] at h
        simp only [Except.ok.injEq] at h
        rw [show cs = (applyEmail name vals).1 from by rw [h], applyEmail_fst_len]
      · rw [if_neg h2] at h
        by_cases h3 : t = "date"
        · rw [if_pos h3] at h
          simp only [Except.ok.injEq] at h
          rw [show cs = (applyDate ts ys name vals).1 from by rw [h], applyDate_fst_len]
        · rw [if_neg h3] at h
          simp only [Except.ok.injEq, Prod.mk.injEq] at h
          rw [← h.1]

theorem cleanCols_shape (ts ys : List Char) (ft : List (List Char × String)) :
    ∀ (df : List (List Char × List Cell)) res,
      cleanCols ts ys ft df = Except.ok res →
      List.Forall₂ (fun a b => a.1 = b.1 ∧ a.2.length = b.2.length) res.1 df := by
  intro df
  induction df with
  | nil =>
    intro res h
    simp only [cleanCols, Except.ok.injEq] at h
    rw [← h]
    exact List.Forall₂.nil
  | cons p rest ih =>
    obtain ⟨n, v⟩ := p
    intro res h
    simp only [cleanCols] at h
    cases hc : cleanCol ts ys ft n v with
    | error e =>
      simp only [hc] at h
      exact Except.noConfusion h
    | ok p1 =>
      obtain ⟨cs, l1⟩ := p1
      simp only [hc] at h
      cases hr : cleanCols ts ys ft rest with
      | error e =>
        simp only [hr] at h
        exact Except.noConfusion h
      | ok pr =>
        obtain ⟨rest2, l2⟩ := pr
        simp only [hr, Except.ok.injEq] at h
        rw [← h]
        exact List.Forall₂.cons ⟨rfl, cleanCol_len ts ys ft n v cs l1 hc⟩
          (ih (rest2, l2) hr)

theorem salaryPass_shape (d : List (List Char × List Cell)) :
    List.Forall₂ (fun a b => a.1 = b.1 ∧ a.2.length = b.2.length) (salaryPass d) d := by
  induction d with
  | nil => exact List.Forall₂.nil
  | cons p rest ih =>
    obtain ⟨n, v⟩ := p
    show List.Forall₂ _
      ((if containsSub (pyLower n) (chars "salary")
        then (n, v.map pdToNumericCell) else (n, v)) :: salaryPass rest) _
    refine List.Forall₂.cons ?_ ih
    split <;> exact ⟨rfl, by simp⟩

theorem forall₂_shape_trans {c d e : List (List Char × List Cell)}
    (h1 : List.Forall₂ (fun a b => a.1 = b.1 ∧ a.2.length = b.2.length) c d)
    (h2 : List.Forall₂ (fun a b => a.1 = b.1 ∧ a.2.length = b.2.length) d e) :
    List.Forall₂ (fun a b => a.1 = b.1 ∧ a.2.length = b.2.length) c e := by
  induction h1 generalizing e with
  | nil =>
    cases h2
    exact List.Forall₂.nil
  | cons hab hcd ih =>
    cases h2 with
    | cons hbe hde =>
      exact List.Forall₂.cons ⟨hab.1.trans hbe.1, hab.2.trans hbe.2⟩ (ih hde)

theorem cleanCols_mem (ts ys : List Char) (ft : List (List Char × String)) :
    ∀ (df : List (List Char × List Cell)) res,
      cleanCols ts ys ft df = Except.ok res →
      ∀ name vals, (name, vals) ∈ df → fieldLookup ft name = none →
      (name, vals) ∈ res.1 := by
  intro df
  induction df with
  | nil =>
    intro res h name vals hm
    exact absurd hm (List.not_mem_nil _)
  | cons p rest ih =>
    obtain ⟨n, v⟩ := p
    intro res h name vals hm hl
    simp only [cleanCols] at h
    cases hc : cleanCol ts ys ft n v with
    | error e =>
      simp only [hc] at h
      exact Except.noConfusion h
    | ok p1 =>
      obtain ⟨cs, l1⟩ := p1
      simp only [hc] at h
      cases hr : cleanCols ts ys ft rest with
      | error e =>
        simp only [hr] at h
        exact Except.noConfusion h
      | ok pr =>
        obtain ⟨rest2, l2⟩ := pr
        simp only [hr, Except.ok.injEq] at h
        rw [← h]
        rw [List.mem_cons] at hm
        rcases hm with hm | hm
        · obtain ⟨e1, e2⟩ := Prod.mk.injEq _ _ _ _ ▸ hm
          subst e1
          subst e2
          have hcv : cleanCol ts ys ft name vals = Except.ok (vals, []) := by
            unfold cleanCol
            rw [hl]
          rw [hcv] at hc
          obtain ⟨ec, _⟩ := Prod.mk.injEq _ _ _ _ ▸ (Except.ok.inj hc)
          rw [← ec]
          exact List.mem_cons_self _ _
        · exact List.mem_cons_of_mem _ (ih (rest2, l2) hr name vals hm hl)

theorem salaryPass_mem (d : List (List Char × List Cell)) (name : List Char)
    (vals : List Cell) (hm : (name, vals) ∈ d)
    (hs : containsSub (pyLower name) (chars "salary") = false) :
    (name, vals) ∈ salaryPass d := by
  have : (name, vals) =
      (if containsSub (pyLower name) (chars "salary")
       then (name, vals.map pdToNumericCell) else (name, vals)) := by
    rw [hs]
    simp
  rw [this]
  exact List.mem_map_of_mem _ hm

/-- Claim C1 (code evaluation at the failing input): far from recovering
every per-cell failure locally, the pipeline raises AttributeError on a
numeric placeholder cell, because every logging path of clean_numeric
invokes the undefined method add_log. -/
theorem C1_pipeline_raises_attribute_error :
    clean_dataframe (chars "2024-06-02") (chars "2024-06-01")
        [(chars "age", [Cell.str (chars "n/a")])] [(chars "age", "number")]
      = Except.error (PyErr.attributeError "add_log") := by decide

/-- Claim C2 (code evaluation at the failing input): for date and email
columns the dispatch loop passes row index 0 for every cell, so the log
entry for the cell at 0-based position 1 reports row 1 instead of 2, for
the date and the email cleaner alike. -/
theorem C2_log_rows_hardcoded_one :
    (clean_dataframe (chars "2024-06-02") (chars "2024-06-01")
        [(chars "d", [Cell.str (chars "2024-01-15"), Cell.str (chars "bad")])]
        [(chars "d", "date")]
      = Except.ok ([(chars "d", [Cell.str (chars "2024-01-15"), Cell.str (chars "bad")])],
                   [(chars "d", [Cell.str (chars "2024-01-15"), Cell.str (chars "bad")])],
                   [{ row := 1, column := chars "d", raw := Cell.str (chars "bad"),
                      cleaned := Cell.null, issue := "invalid_format",
                      rule := some (chars "valid_date_format"),
                      hint := some dateFormatsHint }])) ∧
    (clean_dataframe (chars "2024-06-02") (chars "2024-06-01")
        [(chars "email", [Cell.str (chars "a@b.com"), Cell.str (chars "bad")])]
        [(chars "email", "email")]
      = Except.ok ([(chars "email", [Cell.str (chars "a@b.com"), Cell.str (chars "bad")])],
                   [(chars "email", [Cell.str (chars "a@b.com"), Cell.str (chars "bad")])],
                   [{ row := 1, column := chars "email", raw := Cell.str (chars "bad"),
                      cleaned := Cell.str (chars "bad"), issue := "invalid_email",
                      rule := some (chars "valid_email_format"),
                      hint := some (chars "缺少@或域名后缀不完整") }])) := by
  constructor
  · decide
  · decide

/-- Claim C3 counterexample: a column named salary that is absent from the
type map is not passed through unchanged; the final coercion pass turns its
non-numeric cell into null. -/
theorem C3_salary_column_not_passed_through :
    clean_dataframe (chars "2024-06-02") (chars "2024-06-01")
        [(chars "salary", [Cell.str (chars "abc")])] []
      = Except.ok ([(chars "salary", [Cell.null])],
                   [(chars "salary", [Cell.str (chars "abc")])], []) ∧
    ([(chars "salary", [Cell.null])] : List (List Char × List Cell))
      ≠ [(chars "salary", [Cell.str (chars "abc")])] := by
  constructor
  · decide
  · decide

/-- Claim C3 as amended: every column absent from the type map whose name
does not contain the word salary (case-insensitively) appears in the
cleaned frame identical to its form in the input, whenever the pipeline
returns. -/
theorem C3_passthrough_amended (ts ys : List Char) (df : List (List Char × List Cell))
    (ft : List (List Char × String)) (c o : List (List Char × List Cell))
    (lg : List LogEntry) (name : List Char) (vals : List Cell)
    (h : clean_dataframe ts ys df ft = Except.ok (c, o, lg))
    (hm : (name, vals) ∈ df) (hl : fieldLookup ft name = none)
    (hs : containsSub (pyLower name) (chars "salary") = false) :
    (name, vals) ∈ c := by
  unfold clean_dataframe at h
  cases hr : cleanCols ts ys ft df with
  | error e =>
    simp only [hr] at h
    exact Except.noConfusion h
  | ok pr =>
    obtain ⟨c0, l0⟩ := pr
    simp only [hr, Except.ok.injEq, Prod.mk.injEq] at h
    rw [← h.1]
    exact salaryPass_mem c0 name vals
      (cleanCols_mem ts ys ft df (c0, l0) hr name vals hm hl) hs

theorem C3_passthrough_amended_witness :
    clean_dataframe (chars "2024-06-02") (chars "2024-06-01")
        [(chars "notes", [Cell.str (chars "x")])] []
      = Except.ok ([(chars "notes", [Cell.str (chars "x")])],
                   [(chars "notes", [Cell.str (chars "x")])], []) ∧
    fieldLookup [] (chars "notes") = none ∧
    containsSub (pyLower (chars "notes")) (chars "salary") = false ∧
    (chars "notes", [Cell.str (chars "x")])
      ∈ [(chars "notes", [Cell.str (chars "x")])] :=
  ⟨by decide, by decide, by decide,
   C3_passthrough_amended (chars "2024-06-02") (chars "2024-06-01")
     [(chars "notes", [Cell.str (chars "x")])] []
     [(chars "notes", [Cell.str (chars "x")])]
     [(chars "notes", [Cell.str (chars "x")])] [] (chars "notes")
     [Cell.str (chars "x")] (by decide) (by decide) (by decide) (by decide)⟩

/-- Claim C4: numeric cleaning of the string dollar-sign 7 comma 000 in a
column named salary strips the currency marker and the thousands comma,
extracts the first numeric token, and returns the number 7000 with no
range violation, no log entry, and no error; the full pipeline run
confirms the empty log. -/
theorem C4_currency_stripping :
    clean_numeric (Cell.str (chars "$7,000")) 0 (chars "salary")
      = Except.ok (Cell.num 7000) ∧
    clean_dataframe (chars "2024-06-02") (chars "2024-06-01")
        [(chars "salary", [Cell.str (chars "$7,000")])] [(chars "salary", "number")]
      = Except.ok ([(chars "salary", [Cell.num 7000])],
                   [(chars "salary", [Cell.str (chars "$7,000")])], []) := by
  constructor
  · decide
  · decide


theorem C5_dmy_ambiguity_resolution_witness :
    matchDMY (pyLower (pyStrip (chars "01/02/2024")))
      = some (chars "01", chars "02", chars "2024") ∧
    clean_date (chars "2024-06-02") (chars "2024-06-01")
        (Cell.str (chars "01/02/2024")) 0 (chars "d")
      = (Cell.str (chars "2024-01-02"),
         [{ row := 1, column := chars "d", raw := Cell.str (chars "01/02/2024"),
            cleaned := Cell.str (chars "2024-01-02"), issue := "ambiguous_date",
            rule := none, hint := some (ambHint (chars "01") (chars "02")) }]) ∧
    clean_date (chars "2024-06-02") (chars "2024-06-01")
        (Cell.str (chars "25/12/2024")) 0 (chars "d")
      = (Cell.str (chars "2024-12-25"), []) :=
  ⟨by decide,
   (C5_dmy_ambiguity_resolution (chars "2024-06-02") (chars "2024-06-01") (chars "01/02/2024")
      (chars "01") (chars "02") (chars "2024") 0 (chars "d") (by decide)).1
     ⟨by decide, by decide⟩,
   (C5_dmy_ambiguity_resolution (chars "2024-06-02") (chars "2024-06-01") (chars "25/12/2024")
      (chars "25") (chars "12") (chars "2024") 0 (chars "d") (by decide)).2.2
     (by decide) (by decide)⟩

/-- Claim C6 as amended (date part, which holds as stated): a non-null
value that is neither a natural-language keyword nor a match of any of the
three supported patterns yields exactly one log entry with issue
invalid_format, rule valid_date_format, cleaned null, and the hint listing
the supported formats, and clean_date returns the original value
unmodified. -/
theorem C6_invalid_date_format (ts ys : List Char) (v : Cell) (hv : v ≠ Cell.null)
    (i : Nat) (col : List Char)
    (hy : pyLower (pyStrip (cellStr v)) ≠ chars "yesterday")
    (ht : pyLower (pyStrip (cellStr v)) ≠ chars "today")
    (h1 : matchYMD (pyLower (pyStrip (cellStr v))) = none)
    (h2 : matchDMY (pyLower (pyStrip (cellStr v))) = none)
    (h3 : matchDot (pyLower (pyStrip (cellStr v))) = none) :
    clean_date ts ys v i col =
      (v, [{ row := i + 1, column := col, raw := v, cleaned := Cell.null,
             issue := "invalid_format", rule := some (chars "valid_date_format"),
             hint := some dateFormatsHint }]) := by
  cases v with
  | null => exact absurd rfl hv
  | num q => simp only [clean_date, h1, h2, h3, if_neg hy, if_neg ht]
  | str s => simp only [clean_date, h1, h2, h3, if_neg hy, if_neg ht]

theorem C6_invalid_date_format_witness :
    Cell.str (chars "not-a-date") ≠ Cell.null ∧
    matchYMD (pyLower (pyStrip (cellStr (Cell.str (chars "not-a-date"))))) = none ∧
    matchDMY (pyLower (pyStrip (cellStr (Cell.str (chars "not-a-date"))))) = none ∧
    matchDot (pyLower (pyStrip (cellStr (Cell.str (chars "not-a-date"))))) = none ∧
    clean_date (chars "2024-06-02") (chars "2024-06-01")
        (Cell.str (chars "not-a-date")) 4 (chars "d")
      = (Cell.str (chars "not-a-date"),
         [{ row := 5, column := chars "d", raw := Cell.str (chars "not-a-date"),
            cleaned := Cell.null, issue := "invalid_format",
            rule := some (chars "valid_date_format"),
            hint := some dateFormatsHint }]) :=
  ⟨by decide, by decide, by decide, by decide,
   C6_invalid_date_format (chars "2024-06-02") (chars "2024-06-01")
     (Cell.str (chars "not-a-date")) (by decide) 4 (chars "d")
     (by decide) (by decide) (by decide) (by decide) (by decide)⟩

/-- Claim C6 counterexample (contrast clause): the claim asserts that
numeric cleaning nulls out format failures, but in the code a non-numeric
cell raises AttributeError from the undefined add_log method instead of
returning null. -/
theorem C6_numeric_contrast_fails :
    clean_numeric (Cell.str (chars "abc")) 0 (chars "note")
      = Except.error (PyErr.attributeError "add_log") ∧
    (Except.error (PyErr.attributeError "add_log") : Except PyErr Cell)
      ≠ Except.ok Cell.null := by
  constructor
  · decide
  · decide

/-- Claim C7: email cleaning repairs the hash sign so that
zhang hash example.com becomes zhang at example.com with no log entry;
lisi at example is returned unchanged with exactly one invalid_email entry
whose cleaned field is the repaired string; and in general clean_email
returns the repaired string for every string input, never null. -/
theorem C7_email_repair :
    clean_email (Cell.str (chars "zhang#example.com")) 0 (chars "email")
      = (Cell.str (chars "zhang@example.com"), []) ∧
    clean_email (Cell.str (chars "lisi@example")) 0 (chars "email")
      = (Cell.str (chars "lisi@example"),
         [{ row := 1, column := chars "email", raw := Cell.str (chars "lisi@example"),
            cleaned := Cell.str (chars "lisi@example"), issue := "invalid_email",
            rule := some (chars "valid_email_format"),
            hint := some (chars "缺少@或域名后缀不完整") }]) ∧
    ∀ (v : List Char) (i : Nat) (col : List Char),
      (clean_email (Cell.str v) i col).1 = Cell.str (emailNormalize v) := by
  refine ⟨by decide, by decide, fun v i col => ?_⟩
  exact clean_email_fst (Cell.str v) (fun hh => Cell.noConfusion hh) i col

/-- Claim C10: clean_email is idempotent as a value transformation; for
every non-null cell, applying clean_email to the result of clean_email
returns the same value, ignoring log side effects. -/
theorem C10_clean_email_idempotent (v : Cell) (hv : v ≠ Cell.null) (i j : Nat)
    (col1 col2 : List Char) :
    (clean_email ((clean_email v i col1).1) j col2).1 = (clean_email v i col1).1 := by
  rw [clean_email_fst v hv i col1,
      clean_email_fst (Cell.str (emailNormalize (cellStr v)))
        (fun hh => Cell.noConfusion hh) j col2]
  show Cell.str (emailNormalize (emailNormalize (cellStr v)))
      = Cell.str (emailNormalize (cellStr v))
  rw [emailNormalize_idem]

theorem C10_clean_email_idempotent_witness :
    Cell.str (chars " Zhang#Example.COM ") ≠ Cell.null ∧
    (clean_email ((clean_email (Cell.str (chars " Zhang#Example.COM ")) 0
        (chars "email")).1) 1 (chars "mail")).1
      = (clean_email (Cell.str (chars " Zhang#Example.COM ")) 0 (chars "email")).1 :=
  ⟨fun hh => Cell.noConfusion hh,
   C10_clean_email_idempotent (Cell.str (chars " Zhang#Example.COM "))
     (fun hh => Cell.noConfusion hh) 0 1 (chars "email") (chars "mail")⟩

/-- Claim C8 (with the code evaluation at its failing input): on a table
with an uncleanable numeric cell the pipeline raises AttributeError
instead of returning; whenever the pipeline does return, the cleaned and
original frames have the same column names and per-column row counts as
the input, and the original is the unchanged input snapshot. -/
theorem C8_shape_preservation :
    (clean_dataframe (chars "2024-06-02") (chars "2024-06-01")
        [(chars "age", [Cell.str (chars "invalid")])] [(chars "age", "number")]
      = Except.error (PyErr.attributeError "add_log")) ∧
    (∀ (ts ys : List Char) (df : List (List Char × List Cell))
        (ft : List (List Char × String)) (c o : List (List Char × List Cell))
        (lg : List LogEntry),
        clean_dataframe ts ys df ft = Except.ok (c, o, lg) →
        List.Forall₂ (fun a b => a.1 = b.1 ∧ a.2.length = b.2.length) c df ∧ o = df) := by
  constructor
  · decide
  · intro ts ys df ft c o lg h
    unfold clean_dataframe at h
    cases hr : cleanCols ts ys ft df with
    | error e =>
      simp only [hr] at h
      exact Except.noConfusion h
    | ok pr =>
      obtain ⟨c0, l0⟩ := pr
      simp only [hr, Except.ok.injEq, Prod.mk.injEq] at h
      obtain ⟨h1, h2, h3⟩ := h
      constructor
      · rw [← h1]
        exact forall₂_shape_trans (salaryPass_shape c0)
          (cleanCols_shape ts ys ft df (c0, l0) hr)
      · exact h2.symm

theorem C8_shape_preservation_witness :
    clean_dataframe (chars "2024-06-02") (chars "2024-06-01")
        [(chars "name", [Cell.str (chars "a"), Cell.null])] []
      = Except.ok ([(chars "name", [Cell.str (chars "a"), Cell.null])],
                   [(chars "name", [Cell.str (chars "a"), Cell.null])], []) ∧
    (List.Forall₂ (fun a b => a.1 = b.1 ∧ a.2.length = b.2.length)
        [(chars "name", [Cell.str (chars "a"), Cell.null])]
        [(chars "name", [Cell.str (chars "a"), Cell.null])] ∧
      ([(chars "name", [Cell.str (chars "a"), Cell.null])] :
          List (List Char × List Cell))
        = [(chars "name", [Cell.str (chars "a"), Cell.null])]) :=
  ⟨by decide,
   C8_shape_preservation.2 (chars "2024-06-02") (chars "2024-06-01")
     [(chars "name", [Cell.str (chars "a"), Cell.null])] []
     [(chars "name", [Cell.str (chars "a"), Cell.null])]
     [(chars "name", [Cell.str (chars "a"), Cell.null])] [] (by decide)⟩

/-- Claim C9 counterexample: a column whose name contains email but whose
values are all null is classified text by the all-null rule, which
precedes the name-based email rule, even though neither the numeric nor
the date threshold is crossed. -/
theorem C9_all_null_email_name :
    detect_type (chars "email") [Cell.null] = "text" ∧
    detect_type (chars "email") [Cell.null] ≠ "email" := by
  constructor
  · decide
  · decide

/-- Claim C9 as amended: a column whose non-null values cross the numeric
threshold is classified number (the numeric check precedes the date
check, so the date statistics cannot override it); and a column with at
least one non-null value that crosses neither the numeric nor the date
threshold and whose lowered name contains email or mail is classified
email. -/
theorem C9_detect_order :
    (∀ (name : List Char) (values : List Cell),
        5 * numericCount values > 4 * (nonNullOf values).length →
        detect_type name values = "number") ∧
    (∀ (name : List Char) (values : List Cell),
        nonNullOf values ≠ [] →
        ¬(5 * numericCount values > 4 * (nonNullOf values).length) →
        ¬(10 * dateCount values > 7 * (nonNullOf values).length) →
        (containsSub (pyLower name) (chars "email") ||
          containsSub (pyLower name) (chars "mail")) = true →
        detect_type name values = "email") := by
  constructor
  · intro name values h
    have hcle : numericCount values ≤ (nonNullOf values).length := by
      unfold numericCount
      exact List.countP_le_length pdOk
    have hne : ¬((nonNullOf values).isEmpty = true) := by
      intro he
      rw [List.isEmpty_iff] at he
      rw [he] at h hcle
      simp at hcle
      rw [hcle] at h
      simp at h
    unfold detect_type
    rw [if_neg hne, if_pos h]
  · intro name values hne hnum hdate hname
    have hne2 : ¬((nonNullOf values).isEmpty = true) := by
      rw [List.isEmpty_iff]
      exact hne
    unfold detect_type
    rw [if_neg hne2, if_neg hnum, if_neg hdate, if_pos hname]

theorem C9_detect_order_witness :
    (5 * numericCount [Cell.num 1, Cell.num 2]
        > 4 * (nonNullOf [Cell.num 1, Cell.num 2]).length ∧
      detect_type (chars "score") [Cell.num 1, Cell.num 2] = "number") ∧
    (nonNullOf [Cell.str (chars "abc")] ≠ [] ∧
      ¬(5 * numericCount [Cell.str (chars "abc")]
          > 4 * (nonNullOf [Cell.str (chars "abc")]).length) ∧
      ¬(10 * dateCount [Cell.str (chars "abc")]
          > 7 * (nonNullOf [Cell.str (chars "abc")]).length) ∧
      detect_type (chars "Email") [Cell.str (chars "abc")] = "email") :=
  ⟨⟨by decide, C9_detect_order.1 (chars "score") [Cell.num 1, Cell.num 2] (by decide)⟩,
   ⟨by decide, by decide, by decide,
    C9_detect_order.2 (chars "Email") [Cell.str (chars "abc")]
      (by decide) (by decide) (by decide) (by decide)⟩⟩
